import Mathlib

/-!
Verification development for the hyper-recovery WiFi configuration daemon.

The Rust sources are shallowly embedded: pure control flow is translated to
Lean functions, external effects (D-Bus calls, process spawning, the file
system, `nmcli` output) are supplied as explicit oracle inputs, and machine
integers are modelled as `Nat` (all the arithmetic in scope — signal
strengths 0..100, IPv4 octets 0..255, channel numbers — stays far below any
overflow boundary, and the Rust code performs no wrapping arithmetic).
-/

namespace HyperRecovery

/-! ## String utilities mirroring the Rust standard library -/

/-- The Unicode White_Space property, used by Rust's `str::trim`. -/
def isRustWhitespace (c : Char) : Bool :=
  c = ' ' || c = '\t' || c = '\n' || c = '\r' ||
  c.val = 0x0b || c.val = 0x0c || c.val = 0x85 || c.val = 0xa0 ||
  c.val = 0x1680 || (0x2000 ≤ c.val && c.val ≤ 0x200a) ||
  c.val = 0x2028 || c.val = 0x2029 || c.val = 0x202f ||
  c.val = 0x205f || c.val = 0x3000

/-- `str::trim`: strip whitespace from both ends. -/
def rustTrim (s : String) : String :=
  ⟨(((s.data.dropWhile isRustWhitespace).reverse.dropWhile isRustWhitespace).reverse)⟩

/-- ASCII lowercasing of a character (`u8::to_ascii_lowercase`). -/
def asciiLower (c : Char) : Char :=
  if 'A' ≤ c && c ≤ 'Z' then Char.ofNat (c.toNat + 32) else c

/-- `str::eq_ignore_ascii_case`. -/
def eqIgnoreAsciiCase (a b : String) : Bool :=
  a.data.map asciiLower = b.data.map asciiLower

/-- Decimal rendering of a `Nat`, used to mirror `format!` of integers. -/
def natToString (n : Nat) : String := toString n

/-! ## IPv4 parsing and printing (`std::net::Ipv4Addr`) -/

/-- One octet of `Ipv4Addr::from_str`: decimal digits, value ≤ 255, and no
leading zero (Rust rejects `"01"`). -/
def parseOctet (cs : List Char) : Option Nat :=
  match cs with
  | [] => none
  | _ =>
    if cs.all (fun c => c.isDigit) then
      if cs.length > 1 && cs.head? = some '0' then none
      else
        let v := cs.foldl (fun acc c => acc * 10 + (c.toNat - '0'.toNat)) 0
        if v ≤ 255 then some v else none
    else none

/-- Split a character list at every occurrence of the separator. -/
def splitOnChar (sep : Char) (cs : List Char) : List (List Char) :=
  match cs with
  | [] => [[]]
  | c :: rest =>
    let tail := splitOnChar sep rest
    if c = sep then [] :: tail
    else
      match tail with
      | [] => [[c]]
      | t :: ts => (c :: t) :: ts

/-- `Ipv4Addr::from_str`: exactly four dot-separated octets. -/
def parseIpv4 (s : String) : Option (Nat × Nat × Nat × Nat) :=
  match (splitOnChar '.' s.data).map parseOctet with
  | [some a, some b, some c, some d] => some (a, b, c, d)
  | _ => none

/-- `Ipv4Addr::to_string`. -/
def ipv4ToString (ip : Nat × Nat × Nat × Nat) : String :=
  natToString ip.1 ++ "." ++ natToString ip.2.1 ++ "." ++
    natToString ip.2.2.1 ++ "." ++ natToString ip.2.2.2

/-! ## Interface Resolver
(`src/pkgs/hyper-connect/src/controller/network_manager.rs`,
`resolve_wireless_interface` / `choose_auto_interface`; the
`hyper-wifi-setup` copy is textually identical).

`list_wireless_interfaces` reads `/sys/class/net`; its result is the oracle
input `interfaces`.  `detect_unbound_pci_wifi_devices` reads
`/sys/bus/pci/devices`; its formatted result list is the oracle input
`pciUnbound`. -/

structure WirelessInterface where
  name : String
  driver_bound : Bool
  device_hint : String
deriving DecidableEq, Repr

/-- `choose_auto_interface`. -/
def chooseAutoInterface (interfaces : List WirelessInterface)
    (pciUnbound : List String) : Except String String :=
  let viable := (interfaces.filter
      (fun i => i.driver_bound && !(i.name.startsWith "p2p-"))).mergeSort
      (fun a b => a.name ≤ b.name)
  match viable.head? with
  | some interface => .ok interface.name
  | none =>
    let withoutDriver := (interfaces.filter
        (fun i => !i.driver_bound && !(i.name.startsWith "p2p-"))).map
        (fun i => i.name ++ " (" ++ i.device_hint ++ ")")
    if withoutDriver ≠ [] then
      .error ("Wireless interface(s) detected but no kernel driver is bound: "
        ++ String.intercalate ", " withoutDriver
        ++ ". This usually indicates missing firmware or driver support.")
    else if pciUnbound ≠ [] then
      .error ("No usable wireless interface found. Detected wireless PCI device(s) without loaded driver: "
        ++ String.intercalate ", " pciUnbound
        ++ ". This usually means firmware/driver for the adapter is missing.")
    else
      .error "No usable wireless interfaces detected"

/-- `resolve_wireless_interface`. -/
def resolveWirelessInterface (configured : String)
    (interfaces : List WirelessInterface) (pciUnbound : List String) :
    Except String String :=
  let c := rustTrim configured
  if eqIgnoreAsciiCase c "auto" || c = "" then
    chooseAutoInterface interfaces pciUnbound
  else
    match interfaces.find? (fun i => i.name = c) with
    | some iface =>
      if iface.driver_bound then .ok iface.name
      else
        .error ("Wireless card detected for interface '" ++ iface.name
          ++ "' (device: " ++ iface.device_hint
          ++ ") but no kernel driver is bound. This usually indicates missing firmware or driver support for the adapter.")
    | none =>
      let detectedWireless := interfaces.filter
        (fun i => !(i.name.startsWith "p2p-"))
      let viable := detectedWireless.filter (fun i => i.driver_bound)
      if h : viable.length = 1 then
        .ok (viable.head (by intro hnil; simp [hnil] at h)).name
      else if viable ≠ [] then
        .error ("Configured interface '" ++ c
          ++ "' was not found. Detected wireless interfaces: "
          ++ String.intercalate ", " (viable.map (fun i => i.name))
          ++ ". Set --interface explicitly or use --interface auto.")
      else if detectedWireless ≠ [] then
        .error ("Configured interface '" ++ c
          ++ "' was not found. Wireless interface(s) detected but no kernel driver is bound: "
          ++ String.intercalate ", "
              (detectedWireless.map (fun i => i.name ++ " (" ++ i.device_hint ++ ")"))
          ++ ". This usually indicates missing firmware or driver support.")
      else if pciUnbound ≠ [] then
        .error ("No wireless interface is currently available. Detected wireless PCI device(s) without loaded driver: "
          ++ String.intercalate ", " pciUnbound
          ++ ". This usually means firmware/driver for the adapter is missing.")
      else
        .error ("Configured interface '" ++ c
          ++ "' was not found and no wireless interfaces were detected")

/-! ## Subnet Resolver (`resolve_ap_ip` / `occupied_ipv4_prefixes`).
The `ip -4 -o addr show` query result is the oracle input `occupied`. -/

def DEFAULT_AP_IP : String := "192.168.42.1"

def AP_IP_CANDIDATES : List String :=
  ["192.168.42.1", "10.42.0.1", "172.20.42.1", "192.168.88.1", "10.123.0.1"]

/-- The candidate-selection loop of `resolve_ap_ip` in the `auto` branch. -/
def pickApCandidate (occupied : List (Nat × Nat × Nat)) :
    List String → Option String
  | [] => none
  | candidate :: rest =>
    match parseIpv4 candidate with
    | none => pickApCandidate occupied rest
    | some (a, b, c, _) =>
      if !(occupied.contains (a, b, c)) then some candidate
      else pickApCandidate occupied rest

/-- `resolve_ap_ip`. -/
def resolveApIp (configured : String) (occupied : List (Nat × Nat × Nat)) :
    Except String String :=
  let c := rustTrim configured
  if !(eqIgnoreAsciiCase c "auto") then
    match parseIpv4 c with
    | some ip => .ok (ipv4ToString ip)
    | none => .error ("Invalid AP IP address: '" ++ c ++ "'")
  else
    match pickApCandidate occupied AP_IP_CANDIDATES with
    | some candidate => .ok candidate
    | none => .ok DEFAULT_AP_IP

/-! ## Network Scanner, D-Bus variant
(`src/pkgs/hyper-connect/src/controller/network_manager.rs`,
`scan_networks` / `read_access_point` / `classify_security` /
`frequency_to_channel`).  The per-access-point property reads are the
oracle input `observed`. -/

structure NetworkInfo where
  ssid : String
  bssid : String
  signal_strength : Nat
  frequency : Nat
  channel : Nat
  is_secured : Bool
  security_type : String
deriving DecidableEq, Repr

def NM_80211_AP_FLAGS_PRIVACY : Nat := 0x1

/-- `classify_security`. -/
def classifySecurity (flags wpaFlags rsnFlags : Nat) : String :=
  if rsnFlags ≠ 0 && wpaFlags ≠ 0 then "WPA/WPA2"
  else if rsnFlags ≠ 0 then "WPA2/WPA3"
  else if wpaFlags ≠ 0 then "WPA"
  else if (flags &&& NM_80211_AP_FLAGS_PRIVACY) ≠ 0 then "WEP/Protected"
  else "Open"

/-- `frequency_to_channel`. -/
def frequencyToChannel (freq : Nat) : Nat :=
  if 2412 ≤ freq ∧ freq ≤ 2472 then (freq - 2407) / 5
  else if freq = 2484 then 14
  else if 5000 ≤ freq ∧ freq ≤ 5900 then (freq - 5000) / 5
  else 0

/-- The raw properties of one access point as read over D-Bus
(`read_access_point`'s inputs). -/
structure ApProperties where
  ssid_raw : List Char
  hwAddress : String
  strength : Nat
  frequency : Nat
  flags : Nat
  wpaFlags : Nat
  rsnFlags : Nat
deriving DecidableEq, Repr

/-- `read_access_point`: drop empty SSIDs, classify security.  (UTF-8 lossy
decoding is modelled as the identity on the already-decoded character
list.) -/
def readAccessPoint (ap : ApProperties) : Option NetworkInfo :=
  if ap.ssid_raw = [] then none
  else
    let ssid : String := ⟨ap.ssid_raw⟩
    some
      { ssid := ssid
        bssid := ap.hwAddress
        signal_strength := ap.strength
        frequency := ap.frequency
        channel := frequencyToChannel ap.frequency
        is_secured := (ap.flags &&& NM_80211_AP_FLAGS_PRIVACY) ≠ 0
          || ap.wpaFlags ≠ 0 || ap.rsnFlags ≠ 0
        security_type := classifySecurity ap.flags ap.wpaFlags ap.rsnFlags }

/-- One step of the `by_ssid` HashMap accumulation in `scan_networks`:
`entry(ssid).and_modify(keep stronger).or_insert(network)`.  The map is
modelled as an association list in insertion order. -/
def dedupStep (acc : List NetworkInfo) (n : NetworkInfo) : List NetworkInfo :=
  if acc.any (fun e => e.ssid = n.ssid) then
    acc.map (fun e =>
      if e.ssid = n.ssid && n.signal_strength > e.signal_strength then n else e)
  else acc ++ [n]

/-- The `by_ssid` accumulation over all read access points. -/
def dedupBySsid (networks : List NetworkInfo) : List NetworkInfo :=
  networks.foldl dedupStep []

/-- `scan_networks` (D-Bus variant): read each access point, deduplicate by
SSID keeping the stronger signal, then `sort_by(|a, b|
b.signal_strength.cmp(&a.signal_strength))` (a stable descending sort). -/
def scanNetworksDbus (aps : List ApProperties) : List NetworkInfo :=
  (dedupBySsid (aps.filterMap readAccessPoint)).mergeSort
    (fun a b => b.signal_strength ≤ a.signal_strength)

/-! ## Network Scanner, nmcli variant
(`src/pkgs/hyper-wifi-setup/src/controller/network_manager.rs`,
`scan_networks` / `split_escaped_fields`).  The `nmcli` stdout lines are
the oracle input. -/

/-- The character loop of `split_escaped_fields`. -/
def splitEscapedGo (separator : Char) : List Char → List Char → Bool →
    List String → List String
  | [], current, escaped, fields =>
    let current := if escaped then current ++ ['\\'] else current
    (fields ++ [⟨current⟩])
  | ch :: rest, current, escaped, fields =>
    if escaped then splitEscapedGo separator rest (current ++ [ch]) false fields
    else if ch = '\\' then splitEscapedGo separator rest current true fields
    else if ch = separator then
      splitEscapedGo separator rest [] false (fields ++ [(⟨current⟩ : String)])
    else splitEscapedGo separator rest (current ++ [ch]) false fields

/-- `split_escaped_fields`. -/
def splitEscapedFields (line : List Char) (separator : Char) : List String :=
  splitEscapedGo separator line [] false []

/-- `str::parse::<uN>().unwrap_or(0)` for an unsigned bound:
optional leading `+`, at least one digit, value within the bound. -/
def parseUnsignedOr0 (bound : Nat) (s : String) : Nat :=
  let cs := match s.data with
    | '+' :: rest => rest
    | cs => cs
  if cs ≠ [] && cs.all (fun c => c.isDigit) then
    let v := cs.foldl (fun acc c => acc * 10 + (c.toNat - '0'.toNat)) 0
    if v ≤ bound then v else 0
  else 0

/-- `fields[3].split_whitespace().next().unwrap_or("0")`. -/
def firstWhitespaceToken (s : String) : String :=
  match (s.data.dropWhile isRustWhitespace).takeWhile (fun c => !isRustWhitespace c) with
  | [] => "0"
  | cs => ⟨cs⟩

/-- The per-line parse of the nmcli scanner's loop body, applied when the
line has at least 6 fields (`SSID,BSSID,SIGNAL,FREQ,CHAN,SECURITY`). -/
def parseNmcliFields (fields : List String) : NetworkInfo :=
  let ssid := fields.getD 0 ""
  let signal := parseUnsignedOr0 255 (fields.getD 2 "")
  let freq := parseUnsignedOr0 4294967295 (firstWhitespaceToken (fields.getD 3 ""))
  let channel := parseUnsignedOr0 255 (fields.getD 4 "")
  let security := fields.getD 5 ""
  let isSecured := security ≠ "" && security ≠ "--"
  { ssid := ssid
    bssid := fields.getD 1 ""
    signal_strength := signal
    frequency := freq
    channel := channel
    is_secured := isSecured
    security_type := if isSecured then security else "Open" }

/-- The line loop of the nmcli `scan_networks`: skip short lines, empty
SSIDs and already-seen SSIDs (first occurrence wins). -/
def nmcliCollect : List (List String) → List String → List NetworkInfo →
    List NetworkInfo
  | [], _, networks => networks
  | fields :: rest, seen, networks =>
    if fields.length ≥ 6 then
      if fields.getD 0 "" = "" || seen.contains (fields.getD 0 "") then
        nmcliCollect rest seen networks
      else
        nmcliCollect rest (seen ++ [fields.getD 0 ""])
          (networks ++ [parseNmcliFields fields])
    else nmcliCollect rest seen networks

/-- `scan_networks` (nmcli variant): split each stdout line on the escaped
`|` separator, collect first-seen SSIDs, then the same stable descending
sort by signal strength. -/
def scanNetworksNmcli (lines : List (List Char)) : List NetworkInfo :=
  (nmcliCollect (lines.map (fun l => splitEscapedFields l '|')) [] []).mergeSort
    (fun a b => b.signal_strength ≤ a.signal_strength)

/-! ## Credentials Store
(`src/pkgs/hyper-connect/src/controller/credentials.rs`).

`serde_json` values are modelled as a JSON AST; the string encode/decode
layer of `serde_json` (which is inverse on well-formed documents) is
abstracted away, so files hold AST values.  Objects are association lists
in serialization order; a Rust `HashMap` always serializes with distinct
keys. -/

inductive Json where
  | null : Json
  | bool : Bool → Json
  | num : Nat → Json
  | str : String → Json
  | arr : List Json → Json
  | obj : List (String × Json) → Json

/-- Field lookup in a JSON object (first occurrence, as `serde` sees a
well-formed map). -/
def Json.getField (fields : List (String × Json)) (key : String) :
    Option Json :=
  (fields.find? (fun f => f.1 = key)).map (fun f => f.2)

/-- `SavedCredential` (`ssid`, `password`, `#[serde(default)] last_used`,
`#[serde(default)] success_count`). -/
structure SavedCredential where
  ssid : String
  password : String
  last_used : Option Nat
  success_count : Nat
deriving DecidableEq, Repr

/-- `CredentialsStore`: `networks: HashMap<String, SavedCredential>`
(modelled as an association list), and `#[serde(default =
"default_version")] version`. -/
structure CredentialsStore where
  networks : List (String × SavedCredential)
  version : Nat
deriving DecidableEq, Repr

/-- `default_version`. -/
def defaultVersion : Nat := 1

/-- `CredentialsStore::default()` (the `#[derive(Default)]` instance:
empty map and `u32::default() = 0`). -/
def CredentialsStore.defaultStore : CredentialsStore :=
  { networks := [], version := 0 }

/-- Derived `Serialize` for `SavedCredential` (an `Option` serializes as
`null` when `None`). -/
def SavedCredential.toJson (c : SavedCredential) : Json :=
  .obj [("ssid", .str c.ssid), ("password", .str c.password),
        ("last_used", match c.last_used with
          | some t => .num t
          | none => .null),
        ("success_count", .num c.success_count)]

/-- Derived `Deserialize` for `SavedCredential`: `ssid` and `password`
required strings; `last_used` defaults to `None` (and accepts `null`);
`success_count` defaults to `0`. -/
def SavedCredential.fromJson : Json → Option SavedCredential
  | .obj fields => do
    let .str ssid ← Json.getField fields "ssid" | none
    let .str password ← Json.getField fields "password" | none
    let last_used ← match Json.getField fields "last_used" with
      | none => some Option.none
      | some .null => some Option.none
      | some (.num t) => some (Option.some t)
      | some _ => none
    let success_count ← match Json.getField fields "success_count" with
      | none => some 0
      | some (.num n) => some n
      | some _ => none
    some ⟨ssid, password, last_used, success_count⟩
  | _ => none

/-- Derived `Serialize` for `CredentialsStore`. -/
def CredentialsStore.toJson (s : CredentialsStore) : Json :=
  .obj [("networks", .obj (s.networks.map (fun e => (e.1, e.2.toJson)))),
        ("version", .num s.version)]

/-- Deserialize every entry of the `networks` map. -/
def parseNetworkEntries : List (String × Json) →
    Option (List (String × SavedCredential))
  | [] => some []
  | (k, v) :: rest => do
    let cred ← SavedCredential.fromJson v
    let tail ← parseNetworkEntries rest
    some ((k, cred) :: tail)

/-- Derived `Deserialize` for `CredentialsStore`: `networks` required,
`version` defaults to `default_version() = 1`. -/
def CredentialsStore.fromJson : Json → Option CredentialsStore
  | .obj fields => do
    let .obj entries ← Json.getField fields "networks" | none
    let networks ← parseNetworkEntries entries
    let version ← match Json.getField fields "version" with
      | none => some defaultVersion
      | some (.num n) => some n
      | some _ => none
    some ⟨networks, version⟩
  | _ => none

/-! ### File-system model for `save_to` / `load_from` -/

/-- A file: its (JSON) content and its Unix permission bits. -/
structure FsFile where
  content : Json
  mode : Nat

/-- The file system: a partial map from paths to files. -/
def Fs : Type := String → Option FsFile

/-- A file system with no files. -/
def Fs.empty : Fs := fun _ => none

/-- The file-system operations `save_to` performs. -/
inductive FsOp where
  | write : String → Json → Nat → FsOp
  | chmod : String → Nat → FsOp
  | rename : String → String → FsOp

/-- Apply one operation.  `rename` moves the file (content and mode) over
the target, atomically replacing it. -/
def Fs.applyOp (fs : Fs) : FsOp → Fs
  | .write path content mode => fun p =>
    if p = path then some ⟨content, mode⟩ else fs p
  | .chmod path mode => fun p =>
    if p = path then (fs path).map (fun f => ⟨f.content, mode⟩) else fs p
  | .rename src dst => fun p =>
    if p = dst then fs src
    else if p = src then none
    else fs p

def Fs.applyOps (fs : Fs) (ops : List FsOp) : Fs :=
  ops.foldl Fs.applyOp fs

/-- The file-name portion of a path (after the last `/`). -/
def fileNameOf (path : String) : String :=
  ⟨(path.data.reverse.takeWhile (fun c => c ≠ '/')).reverse⟩

/-- The directory portion of a path (up to and including the last `/`). -/
def dirOf (path : String) : String :=
  ⟨(path.data.reverse.dropWhile (fun c => c ≠ '/')).reverse⟩

/-- `Path::file_stem` on a file name: the portion before the last `.`,
except that a leading `.` alone does not start an extension. -/
def fileStemOf (name : String) : String :=
  let cs := name.data
  let afterLastDot := cs.reverse.takeWhile (fun c => c ≠ '.')
  if afterLastDot.length = cs.length then name
  else if afterLastDot.length + 1 = cs.length && cs.head? = some '.' then name
  else ⟨(cs.take (cs.length - (afterLastDot.length + 1)))⟩

/-- `Path::with_extension(ext)`: replace (not append) the extension of the
final path component. -/
def withExtension (path ext : String) : String :=
  dirOf path ++ fileStemOf (fileNameOf path) ++ "." ++ ext

/-- The temporary path `save_to` writes to:
`path.with_extension("tmp")`. -/
def tempPathFor (path : String) : String := withExtension path "tmp"

/-- The mode bits a fresh `fs::write` leaves before the explicit chmod
(determined by the process umask); an oracle input. -/
def saveOps (path : String) (s : CredentialsStore) (initialMode : Nat) :
    List FsOp :=
  [.write (tempPathFor path) s.toJson initialMode,
   .chmod (tempPathFor path) 0o600,
   .rename (tempPathFor path) path]

/-- `CredentialsStore::save_to` on the file-system model. -/
def saveTo (path : String) (s : CredentialsStore) (initialMode : Nat)
    (fs : Fs) : Fs :=
  fs.applyOps (saveOps path s initialMode)

/-- `CredentialsStore::load_from`: missing file gives the default store;
otherwise parse, failing on malformed content. -/
def loadFrom (path : String) (fs : Fs) : Except String CredentialsStore :=
  match fs path with
  | none => .ok CredentialsStore.defaultStore
  | some f =>
    match CredentialsStore.fromJson f.content with
    | some store => .ok store
    | none => .error "Failed to parse credentials file"

/-- `CredentialsStore::save_credential`. -/
def saveCredential (s : CredentialsStore) (ssid password : String)
    (now : Nat) : CredentialsStore :=
  if s.networks.any (fun e => e.1 = ssid) then
    { s with networks := s.networks.map (fun e =>
        if e.1 = ssid then
          (e.1, { ssid := e.2.ssid, password := password,
                  last_used := some now,
                  success_count := e.2.success_count + 1 })
        else e) }
  else
    { s with networks := s.networks ++
        [(ssid, ⟨ssid, password, some now, 1⟩)] }

/-! ## Station Connector
(`src/pkgs/hyper-connect/src/controller/network_manager.rs`,
`connect_to_network` / `wait_for_device_activation` /
`activate_connection`).

The D-Bus interactions of each attempt are oracle inputs: whether
`find_best_ap_for_ssid` errors or finds an access point, the outcome of
`AddAndActivateConnection2` (with legacy fallback already folded into a
single `Result<(), String>` as in `activate_connection`), and what the
`State` polling of `wait_for_device_activation` observes. -/

def NM_DEVICE_STATE_ACTIVATED : Nat := 100
def NM_DEVICE_STATE_FAILED : Nat := 120

/-- Outcome of the attempt's `wait_for_device_activation` poll. -/
inductive PollOutcome where
  /-- `State == 100` observed within the deadline. -/
  | activated : PollOutcome
  /-- `State == 120` observed; the `StateReason` tuple read alongside. -/
  | failedState : Nat → Nat → PollOutcome
  /-- the 35 s deadline elapsed; the last observed state. -/
  | timedOut : Nat → PollOutcome
deriving DecidableEq, Repr

/-- Oracle inputs for one connection attempt. -/
structure AttemptEnv where
  /-- `find_best_ap_for_ssid` D-Bus error (propagated by `?`). -/
  findErr : Option String
  /-- whether the SSID was found in the scan results. -/
  apFound : Bool
  /-- `activate_connection` result: `none` is success. -/
  activateErr : Option String
  /-- what the activation poll observes (used when activation succeeded). -/
  poll : PollOutcome
deriving DecidableEq, Repr

/-- The message `wait_for_device_activation` fails with on `State == 120`. -/
def activationFailedMsg (reason0 reason1 : Nat) : String :=
  "Device activation failed: state=" ++ natToString reason0
    ++ " reason=" ++ natToString reason1

/-- The message `wait_for_device_activation` fails with on timeout. -/
def activationTimeoutMsg (state : Nat) : String :=
  "Connection timed out waiting for device activation (state="
    ++ natToString state ++ ")"

/-- The `last_error` left when the SSID is absent from the scan results. -/
def ssidNotFoundMsg (ssid : String) : String :=
  "SSID '" ++ ssid ++ "' not found in current scan results"

def maxAttempts : Nat := 3

deriving instance DecidableEq for Except

/-- Result of `connect_to_network` together with how many attempts ran and
how many 3 s between-attempt backoffs were slept. -/
structure ConnectOutcome where
  result : Except String Unit
  attemptsUsed : Nat
  backoffs : Nat
deriving DecidableEq, Repr

/-- The attempt loop of `connect_to_network`.  `fuel` counts the remaining
attempts, `attempt` the 1-based attempt index, `lastError` the running
`last_error`; `backoffs` the 3 s sleeps performed so far. -/
def connectAttemptLoop (env : Nat → AttemptEnv) (ssid : String) :
    Nat → Nat → String → Nat → ConnectOutcome
  | 0, _, lastError, backoffs =>
    ⟨.error ("Connection failed after " ++ natToString maxAttempts
      ++ " attempts: " ++ lastError), maxAttempts, backoffs⟩
  | fuel + 1, attempt, lastError, backoffs =>
    let e := env attempt
    match e.findErr with
    | some msg => ⟨.error msg, attempt, backoffs⟩
    | none =>
      let lastError := if e.apFound then lastError else ssidNotFoundMsg ssid
      match e.activateErr with
      | none =>
        match e.poll with
        | .activated => ⟨.ok (), attempt, backoffs⟩
        | .failedState r0 r1 =>
          ⟨.error (activationFailedMsg r0 r1), attempt, backoffs⟩
        | .timedOut st =>
          ⟨.error (activationTimeoutMsg st), attempt, backoffs⟩
      | some msg =>
        if attempt < maxAttempts then
          connectAttemptLoop env ssid fuel (attempt + 1) msg (backoffs + 1)
        else
          connectAttemptLoop env ssid fuel (attempt + 1) msg backoffs

/-- `connect_to_network` (the preamble's best-effort service restart,
device reclaim and address flush have no bearing on the attempt loop). -/
def connectToNetwork (env : Nat → AttemptEnv) (ssid : String) :
    ConnectOutcome :=
  connectAttemptLoop env ssid maxAttempts 1 "" 0

/-! ## WifiState and the daemon's published states
(`src/pkgs/hyper-connect/src/controller/state.rs` for the state types;
`src/pkgs/hyper-wifi-setup/src/controller/mod.rs`, `run_daemon`, for every
write to the shared state). -/

inductive ConnectionStatus where
  | initializing | scanning | awaitingCredentials | connecting
  | connected | failed | disconnected
deriving DecidableEq, Repr

structure WifiState where
  status : ConnectionStatus
  available_networks : List NetworkInfo
  connected_ssid : Option String
  connecting_to : Option String
  ap_running : Bool
  ap_ssid : Option String
  portal_url : Option String
  last_error : Option String
  last_scan : Option Nat
deriving DecidableEq, Repr

/-- `WifiState::default()`: `#[default] Initializing`, everything else
empty/false. -/
def WifiState.default : WifiState :=
  { status := .initializing, available_networks := [],
    connected_ssid := none, connecting_to := none, ap_running := false,
    ap_ssid := none, portal_url := none, last_error := none,
    last_scan := none }

/-- The pre-scan write: `state.status = Scanning`. -/
def writeScanning (s : WifiState) : WifiState :=
  { s with status := .scanning }

/-- The post-scan write: networks, `AwaitingCredentials`, `last_scan`. -/
def writeAwaiting (networks : List NetworkInfo) (now : Nat)
    (s : WifiState) : WifiState :=
  { s with available_networks := networks,
           status := .awaitingCredentials, last_scan := some now }

/-- The post-`start_ap` write: `ap_running`, `ap_ssid`, `portal_url`. -/
def writeApStarted (ssid apIp : String) (s : WifiState) : WifiState :=
  { s with ap_running := true, ap_ssid := some ssid,
           portal_url := some ("http://" ++ apIp) }

/-- The Connect-command entry write: `Connecting`, `connecting_to`, clear
`last_error`. -/
def writeConnecting (ssid : String) (s : WifiState) : WifiState :=
  { s with status := .connecting, connecting_to := some ssid,
           last_error := none }

/-- The Connect-success write: `Connected`, `connected_ssid`, clear
`connecting_to`, `ap_running = false`. -/
def writeConnected (ssid : String) (s : WifiState) : WifiState :=
  { s with status := .connected, connected_ssid := some ssid,
           connecting_to := none, ap_running := false }

/-- The Connect-failure write: `Failed`, clear `connecting_to`, store the
error, `ap_running = true` (the AP was restarted). -/
def writeFailed (err : String) (s : WifiState) : WifiState :=
  { s with status := .failed, connecting_to := none,
           last_error := some err, ap_running := true }

/-- One command served by the control loop, with the oracle outcome of the
connection attempt for `Connect` (`none` = success, `some e` = failure). -/
inductive LoopCmd where
  | scan : LoopCmd
  | connect : String → String → Bool → Option String → LoopCmd
  | shutdown : LoopCmd
  | sigint : LoopCmd
deriving DecidableEq, Repr

/-- The states published from inside the command loop, starting from the
loop-entry state: `Scan` writes nothing; `Connect` publishes the
`Connecting` state and then either the `Connected` state (and the loop
breaks) or the `Failed` state; `Shutdown` and SIGINT break. -/
def loopStates (s : WifiState) : List LoopCmd → List WifiState
  | [] => []
  | .scan :: rest => loopStates s rest
  | .shutdown :: _ => []
  | .sigint :: _ => []
  | .connect ssid _password _save outcome :: rest =>
    let sConnecting := writeConnecting ssid s
    match outcome with
    | none => [sConnecting, writeConnected ssid sConnecting]
    | some e =>
      let sFailed := writeFailed e sConnecting
      sConnecting :: sFailed :: loopStates sFailed rest

/-- Every state `run_daemon` writes to the shared `WifiState` (and sends on
the broadcast channel), in program order, on the longest path: the
early-exit paths (existing connectivity, grace period, successful
auto-connect) publish prefixes of this sequence. -/
def daemonPublishedStates (networks : List NetworkInfo)
    (apSsid apIp : String) (now : Nat) (cmds : List LoopCmd) :
    List WifiState :=
  let s1 := writeScanning WifiState.default
  let s2 := writeAwaiting networks now s1
  let s3 := writeApStarted apSsid apIp s2
  s1 :: s2 :: s3 :: loopStates s3 cmds

/-! ## IPC server (`src/pkgs/hyper-wifi-setup/src/controller/ipc.rs`,
`handle_client`). -/

/-- `ControlCommand` (`src/pkgs/hyper-wifi-setup/src/controller/mod.rs`). -/
inductive ControlCommand where
  | scan : ControlCommand
  | connect : String → String → Bool → ControlCommand
  | shutdown : ControlCommand
deriving DecidableEq, Repr

/-- `WifiStateSnapshot`: `last_scan` replaced by seconds-ago. -/
structure WifiStateSnapshot where
  status : ConnectionStatus
  available_networks : List NetworkInfo
  connected_ssid : Option String
  connecting_to : Option String
  ap_running : Bool
  ap_ssid : Option String
  portal_url : Option String
  last_error : Option String
  last_scan_secs_ago : Option Nat
deriving DecidableEq, Repr

/-- `From<&WifiState> for WifiStateSnapshot`. -/
def WifiState.snapshot (s : WifiState) (now : Nat) : WifiStateSnapshot :=
  { status := s.status, available_networks := s.available_networks,
    connected_ssid := s.connected_ssid, connecting_to := s.connecting_to,
    ap_running := s.ap_running, ap_ssid := s.ap_ssid,
    portal_url := s.portal_url, last_error := s.last_error,
    last_scan_secs_ago := s.last_scan.map (fun t => now - t) }

inductive IpcRequest where
  | getStatus : IpcRequest
  | scan : IpcRequest
  | connect : String → String → Bool → IpcRequest
  | shutdown : IpcRequest
deriving DecidableEq, Repr

inductive IpcResponse where
  | status : WifiStateSnapshot → IpcResponse
  | ok : IpcResponse
  | error : String → IpcResponse
deriving DecidableEq, Repr

/-- The per-request body of `handle_client`.  `channelAlive` is the oracle
for whether `command_tx.send` can deliver (the receiver still exists); the
send result is discarded (`let _ = …`) either way.  Returns the response
written to the client and the command actually delivered to the control
loop, if any. -/
def handleRequest (st : WifiState) (now : Nat) (channelAlive : Bool)
    (req : IpcRequest) : IpcResponse × Option ControlCommand :=
  match req with
  | .getStatus => (.status (st.snapshot now), none)
  | .scan => (.ok, if channelAlive then some .scan else none)
  | .connect ssid password save =>
    (.ok, if channelAlive then some (.connect ssid password save) else none)
  | .shutdown => (.ok, if channelAlive then some .shutdown else none)

/-! ## AP Lifecycle
(`src/pkgs/hyper-connect/src/controller/ap_manager.rs`, `start_ap` /
`start_ap_inner` / `stop_ap` / `restore_device_after_ap`).

Each externally-visible action of `start_ap_inner` is recorded as an event;
the outcomes of the external effects are oracle inputs.  Events are
recorded for actions that were actually performed (a spawn event is
recorded when the child was created). -/

inductive ApEvent where
  /-- `prepare_device_for_ap`: release the device, stop iwd, wait for the
  unit to be inactive and the station to disconnect. -/
  | prepareDevice : ApEvent
  | linkDown : ApEvent
  | addrFlush : ApEvent
  | writeHostapdConf : ApEvent
  | writeDnsmasqConf : ApEvent
  | spawnHostapd : ApEvent
  /-- `tokio::time::sleep` of the given milliseconds. -/
  | settleMs : Nat → ApEvent
  /-- the non-blocking `try_wait` exit check on hostapd. -/
  | checkHostapdExit : ApEvent
  | storeHostapdHandle : ApEvent
  /-- `ip addr add <ap_ip>/24 dev <interface>`. -/
  | addrAdd : ApEvent
  | linkUp : ApEvent
  /-- `wait_for_ip_assignment` with its timeout and poll interval in ms. -/
  | waitIpAssignment : Nat → Nat → ApEvent
  | spawnDnsmasq : ApEvent
  /-- the non-blocking `try_wait` exit check on dnsmasq. -/
  | checkDnsmasqExit : ApEvent
  | storeDnsmasqHandle : ApEvent
  /-- the full `stop_ap` teardown. -/
  | stopAp : ApEvent
  /-- `restore_device_after_ap`: restart the iwd backend service and mark
  the device managed/autoconnectable. -/
  | restoreDevice : ApEvent
deriving DecidableEq, Repr

/-- Oracle inputs for one `start_ap` run. -/
structure ApEnv where
  /-- error from `prepare_device_for_ap` (unit-stop or disconnect wait
  timeouts), if any. -/
  prepareErr : Option String
  /-- `tokio::fs::write` of the hostapd config succeeded. -/
  writeHostapdConfOk : Bool
  /-- `tokio::fs::write` of the dnsmasq config succeeded. -/
  writeDnsmasqConfOk : Bool
  /-- `Command::new("hostapd").spawn()` succeeded. -/
  spawnHostapdOk : Bool
  /-- exit status observed by `try_wait` after the 2 s settle, if hostapd
  already exited. -/
  hostapdEarlyExit : Option Nat
  /-- the `ip addr add` invocation succeeded. -/
  addrAddOk : Bool
  /-- the `ip link set up` invocation succeeded. -/
  linkUpOk : Bool
  /-- the address appeared on the interface within the 5 s wait. -/
  ipAppeared : Bool
  /-- `Command::new("dnsmasq").spawn()` succeeded. -/
  spawnDnsmasqOk : Bool
  /-- exit status observed by `try_wait` after the 500 ms settle, if
  dnsmasq already exited. -/
  dnsmasqEarlyExit : Option Nat
deriving DecidableEq, Repr

def hostapdEarlyExitMsg (status : Nat) : String :=
  "hostapd exited early with status: " ++ natToString status

def dnsmasqEarlyExitMsg (status : Nat) : String :=
  "dnsmasq exited early with status: " ++ natToString status

def ipAssignTimeoutMsg (apIp interface : String) : String :=
  "Timed out waiting for IP " ++ apIp ++ " to be assigned to " ++ interface

/-- `start_ap_inner`: the straight-line body with every `?`/`bail!` exit,
returning the result and the performed-event trace. -/
def startApInner (env : ApEnv) (interface ssid apIp : String) :
    Except String Unit × List ApEvent :=
  match env.prepareErr with
  | some e => (.error e, [.prepareDevice])
  | none =>
    let tr : List ApEvent :=
      [.prepareDevice, .linkDown, .addrFlush, .writeHostapdConf]
    if !env.writeHostapdConfOk then
      (.error "Failed to write hostapd config", tr)
    else
      match parseIpv4 apIp with
      | none => (.error ("Invalid AP IP address: '" ++ apIp ++ "'"), tr)
      | some _ =>
        let tr := tr ++ [.writeDnsmasqConf]
        if !env.writeDnsmasqConfOk then
          (.error "Failed to write dnsmasq config", tr)
        else if !env.spawnHostapdOk then
          (.error "Failed to start hostapd", tr)
        else
          let tr := tr ++ [.spawnHostapd, .settleMs 2000, .checkHostapdExit]
          match env.hostapdEarlyExit with
          | some status => (.error (hostapdEarlyExitMsg status), tr)
          | none =>
            let tr := tr ++ [.storeHostapdHandle, .addrAdd]
            if !env.addrAddOk then
              (.error "Failed to set IP address", tr)
            else
              let tr := tr ++ [.linkUp]
              if !env.linkUpOk then
                (.error "Failed to bring interface up", tr)
              else
                let tr := tr ++ [.waitIpAssignment 5000 100]
                if !env.ipAppeared then
                  (.error (ipAssignTimeoutMsg apIp interface), tr)
                else if !env.spawnDnsmasqOk then
                  (.error "Failed to start dnsmasq", tr)
                else
                  let tr := tr ++
                    [.spawnDnsmasq, .settleMs 500, .checkDnsmasqExit]
                  match env.dnsmasqEarlyExit with
                  | some status =>
                    (.error (dnsmasqEarlyExitMsg status), tr ++ [.stopAp])
                  | none =>
                    (.ok (), tr ++ [.storeDnsmasqHandle])

/-- `start_ap`: on any failure of the inner body, run the full `stop_ap`
teardown and restore the device, then return the error. -/
def startAp (env : ApEnv) (interface ssid apIp : String) :
    Except String Unit × List ApEvent :=
  match startApInner env interface ssid apIp with
  | (.ok _, tr) => (.ok (), tr)
  | (.error e, tr) => (.error e, tr ++ [.stopAp, .restoreDevice])

/-- `b` is gated by `a` in trace `tr`: if `b` occurs at all then `a`
occurs, and no occurrence of `b` precedes the first occurrence of `a`. -/
def gatedBy (tr : List ApEvent) (a b : ApEvent) : Bool :=
  !tr.contains b ||
    (tr.contains a && !((tr.takeWhile (fun e => e ≠ a)).contains b))

/-! ## Helper lemmas -/

/-- Round-trip of the derived serde pair on one credential. -/
theorem savedCredential_roundtrip (c : SavedCredential) :
    SavedCredential.fromJson c.toJson = some c := by
  cases c with
  | mk ssid password last_used success_count =>
    cases last_used <;>
      simp [SavedCredential.toJson, SavedCredential.fromJson, Json.getField]

/-- Round-trip of the `networks` map serialization. -/
theorem parseNetworkEntries_roundtrip
    (networks : List (String × SavedCredential)) :
    parseNetworkEntries (networks.map (fun e => (e.1, e.2.toJson)))
      = some networks := by
  induction networks with
  | nil => rfl
  | cons head tail ih =>
    simp [parseNetworkEntries, savedCredential_roundtrip, ih]

/-- Round-trip of the derived serde pair on the whole store. -/
theorem credentialsStore_roundtrip (s : CredentialsStore) :
    CredentialsStore.fromJson s.toJson = some s := by
  cases s with
  | mk networks version =>
    simp [CredentialsStore.toJson, CredentialsStore.fromJson, Json.getField,
      parseNetworkEntries_roundtrip]

/-! ## Claim theorems -/

/-- Claim C8: for Scan, Connect and Shutdown requests the IPC server
replies `Ok` unconditionally; the `command_tx.send` result is discarded, so
when the command channel's receiver is gone (`channelAlive = false`) the
response is still `Ok` while no command is delivered. -/
theorem C8_ipc_ok_unconditional (st : WifiState) (now : Nat) (alive : Bool)
    (ssid password : String) (save : Bool) :
    handleRequest st now alive .scan
      = (.ok, if alive then some .scan else none) ∧
    handleRequest st now alive (.connect ssid password save)
      = (.ok, if alive then some (.connect ssid password save) else none) ∧
    handleRequest st now alive .shutdown
      = (.ok, if alive then some .shutdown else none) ∧
    (handleRequest st now false .scan).2 = none ∧
    (handleRequest st now false (.connect ssid password save)).2 = none ∧
    (handleRequest st now false .shutdown).2 = none :=
  ⟨rfl, rfl, rfl, rfl, rfl, rfl⟩

/-- Claim C10: both resolvers trim the configured value and compare it to
"auto" ASCII-case-insensitively, so " AUTO " resolves exactly as "auto"
does, and an explicit AP IP is parsed from the trimmed string. -/
theorem C10_input_normalization (interfaces : List WirelessInterface)
    (pci : List String) (occ : List (Nat × Nat × Nat)) :
    resolveWirelessInterface " AUTO " interfaces pci
      = resolveWirelessInterface "auto" interfaces pci ∧
    resolveApIp " AUTO " occ = resolveApIp "auto" occ ∧
    resolveApIp " 192.168.1.7 " occ = .ok "192.168.1.7" :=
  ⟨rfl, rfl, rfl⟩

/-- Claim C9: the deserializer accepts network records lacking `last_used`
and `success_count` (defaulting them to `None` and `0`), accepts a
top-level object lacking `version` (defaulting it to 1), tolerates each
such omission individually, and a missing credentials file loads as the
empty default store. -/
theorem C9_lenient_deserialization (ns : List (String × String × String))
    (path : String) :
    CredentialsStore.fromJson (.obj [("networks", .obj (ns.map (fun e =>
        (e.1, .obj [("ssid", .str e.2.1), ("password", .str e.2.2)]))))])
      = some { networks := ns.map (fun e => (e.1, ⟨e.2.1, e.2.2, none, 0⟩)),
               version := defaultVersion } ∧
    CredentialsStore.fromJson (.obj [("networks", .obj [("Home",
        .obj [("ssid", .str "Home"), ("password", .str "pw"),
              ("last_used", .num 5)])]), ("version", .num 3)])
      = some { networks := [("Home", ⟨"Home", "pw", some 5, 0⟩)],
               version := 3 } ∧
    CredentialsStore.fromJson (.obj [("networks", .obj [("Home",
        .obj [("ssid", .str "Home"), ("password", .str "pw"),
              ("success_count", .num 7)])]), ("version", .num 3)])
      = some { networks := [("Home", ⟨"Home", "pw", none, 7⟩)],
               version := 3 } ∧
    loadFrom path Fs.empty = .ok CredentialsStore.defaultStore := by
  refine ⟨?_, by rfl, by rfl, by rfl⟩
  induction ns with
  | nil => rfl
  | cons head tail ih =>
    simp [CredentialsStore.fromJson, Json.getField, parseNetworkEntries,
      SavedCredential.fromJson] at ih ⊢
    cases hp : parseNetworkEntries (tail.map (fun e =>
        (e.1, Json.obj [("ssid", .str e.2.1), ("password", .str e.2.2)]))) with
    | none => simp [hp] at ih
    | some v => simp [hp] at ih; simp [hp, ih]

/-- Claim C4: a save→load cycle returns the store unchanged (hence equal as
an SSID→credential mapping), and after the save the file at the target path
has mode 0600 and holds the serialized store.  (I/O failures are outside
the file-system model, matching the claim's "after save_to succeeds".) -/
theorem C4_save_load_roundtrip (path : String) (s : CredentialsStore)
    (initialMode : Nat) (fs : Fs) :
    loadFrom path (saveTo path s initialMode fs) = .ok s ∧
    saveTo path s initialMode fs path = some ⟨s.toJson, 0o600⟩ := by
  have hfile : saveTo path s initialMode fs path = some ⟨s.toJson, 0o600⟩ := by
    simp [saveTo, saveOps, Fs.applyOps, Fs.applyOp]
  refine ⟨?_, hfile⟩
  simp [loadFrom, hfile, credentialsStore_roundtrip]

/-- Claim C5 counterexample: `save_to` derives the temporary path with
`Path::with_extension("tmp")`, which replaces the target's extension
instead of appending; for the store's actual path
`/var/lib/hyper-connect/credentials.json` the temporary file is
`credentials.tmp`, not `credentials.json.tmp` as the claim states. -/
theorem C5_tmp_path_counterexample :
    saveOps "/var/lib/hyper-connect/credentials.json"
        CredentialsStore.defaultStore 0o644 =
      [.write "/var/lib/hyper-connect/credentials.tmp"
          CredentialsStore.defaultStore.toJson 0o644,
       .chmod "/var/lib/hyper-connect/credentials.tmp" 0o600,
       .rename "/var/lib/hyper-connect/credentials.tmp"
          "/var/lib/hyper-connect/credentials.json"] ∧
    "/var/lib/hyper-connect/credentials.tmp"
      ≠ "/var/lib/hyper-connect/credentials.json" ++ ".tmp" := by
  exact ⟨rfl, by decide⟩

/-- Claim C5 amended: `save_to` writes the serialized store to the
temporary file `path.with_extension("tmp")` — the target path with its
final extension replaced by `tmp` (appended only when the file name has no
extension) — in the same directory as the target, applies mode 0600 to the
temporary file before the rename, and then renames it over the target. -/
theorem C5_save_sequence (path : String) (s : CredentialsStore)
    (initialMode : Nat) :
    saveOps path s initialMode =
      [.write (tempPathFor path) s.toJson initialMode,
       .chmod (tempPathFor path) 0o600,
       .rename (tempPathFor path) path] ∧
    tempPathFor path
      = dirOf path ++ fileStemOf (fileNameOf path) ++ "." ++ "tmp" :=
  ⟨rfl, rfl⟩

/-- Claim C7: with an explicit (non-"auto") configured name that matches an
enumerated wireless interface, resolution returns that name when a driver
is bound, fails with a diagnostic embedding the interface's device hint
when no driver is bound, and hence can only succeed when the named
interface is driver-bound. -/
theorem C7_explicit_interface (configured : String)
    (interfaces : List WirelessInterface) (pci : List String)
    (iface : WirelessInterface)
    (hexp : (eqIgnoreAsciiCase (rustTrim configured) "auto"
              || rustTrim configured = "") = false)
    (hfind : interfaces.find? (fun i => i.name = rustTrim configured)
              = some iface) :
    (iface.driver_bound = true →
      resolveWirelessInterface configured interfaces pci
        = .ok (rustTrim configured)) ∧
    (iface.driver_bound = false →
      ∃ pre post, resolveWirelessInterface configured interfaces pci
        = .error (pre ++ iface.device_hint ++ post)) ∧
    (∀ x, resolveWirelessInterface configured interfaces pci = .ok x →
      iface.driver_bound = true) := by
  have hname : iface.name = rustTrim configured := by
    have h := List.find?_some hfind
    simpa using h
  have hres : resolveWirelessInterface configured interfaces pci =
      (if iface.driver_bound then .ok iface.name
       else .error ("Wireless card detected for interface '" ++ iface.name
          ++ "' (device: " ++ iface.device_hint
          ++ ") but no kernel driver is bound. This usually indicates missing firmware or driver support for the adapter.")) := by
    simp [resolveWirelessInterface, hexp, hfind]
  refine ⟨fun hb => ?_, fun hb => ?_, fun x hx => ?_⟩
  · rw [hres, if_pos hb, hname]
  · refine ⟨"Wireless card detected for interface '" ++ iface.name
      ++ "' (device: ",
      ") but no kernel driver is bound. This usually indicates missing firmware or driver support for the adapter.", ?_⟩
    rw [hres, if_neg (by simp [hb])]
  · by_contra hb
    rw [hres, if_neg hb] at hx
    exact Except.noConfusion hx

/-- Witness for C7 at a concrete enumeration: with interfaces
`[wlp3s0 (bound), wlan1 (unbound)]`, the explicit name `wlp3s0` resolves to
itself, and the explicit name `wlan1` can never resolve successfully. -/
theorem C7_explicit_interface_witness :
    resolveWirelessInterface "wlp3s0"
      [⟨"wlp3s0", true, "0000:03:00.0"⟩, ⟨"wlan1", false, "usb1"⟩] []
      = .ok "wlp3s0" :=
  (C7_explicit_interface "wlp3s0"
    [⟨"wlp3s0", true, "0000:03:00.0"⟩, ⟨"wlan1", false, "usb1"⟩] []
    ⟨"wlp3s0", true, "0000:03:00.0"⟩ (by decide) (by decide)).1 rfl

/-- Claim C1 counterexample: when the very first attempt's activation poll
times out (and likewise when it observes device state 120), the connector
returns that poll error immediately — one attempt used, no 3 s backoff and
no "Connection failed after 3 attempts" wrapper — because
`wait_for_device_activation(..).await?` propagates instead of counting as a
failed attempt. -/
theorem C1_poll_abort_counterexample :
    connectToNetwork (fun _ => ⟨none, true, none, .timedOut 30⟩) "MyNet"
      = ⟨.error "Connection timed out waiting for device activation (state=30)",
         1, 0⟩ ∧
    (connectToNetwork (fun _ => ⟨none, true, none, .timedOut 30⟩)
        "MyNet").attemptsUsed ≠ maxAttempts ∧
    connectToNetwork (fun _ => ⟨none, true, none, .failedState 120 3⟩) "MyNet"
      = ⟨.error "Device activation failed: state=120 reason=3", 1, 0⟩ := by
  refine ⟨by decide, by decide, by decide⟩

/-- Claim C1 amended: only a failed `AddAndActivateConnection` call counts
as a failed attempt followed by the 3 s backoff, with up to 3 attempts and
the final "Connection failed after 3 attempts: <last error>"; an activation
poll that ends in state 120 or in the 35 s deadline aborts the whole
connector immediately with the poll's own error, with no retry. -/
theorem C1_retry_semantics (env : Nat → AttemptEnv) (ssid : String)
    (m1 m2 m3 : String) (st r0 r1 : Nat) :
    ((env 1).findErr = none → (env 2).findErr = none →
     (env 3).findErr = none → (env 1).activateErr = some m1 →
     (env 2).activateErr = some m2 → (env 3).activateErr = some m3 →
     connectToNetwork env ssid
       = ⟨.error ("Connection failed after 3 attempts: " ++ m3), 3, 2⟩) ∧
    ((env 1).findErr = none → (env 1).activateErr = none →
     (env 1).poll = .timedOut st →
     connectToNetwork env ssid = ⟨.error (activationTimeoutMsg st), 1, 0⟩) ∧
    ((env 1).findErr = none → (env 1).activateErr = none →
     (env 1).poll = .failedState r0 r1 →
     connectToNetwork env ssid
       = ⟨.error (activationFailedMsg r0 r1), 1, 0⟩) := by
  refine ⟨fun hf1 hf2 hf3 ha1 ha2 ha3 => ?_, fun hf1 ha1 hp => ?_,
    fun hf1 ha1 hp => ?_⟩
  · simp [connectToNetwork, connectAttemptLoop, hf1, hf2, hf3, ha1, ha2,
      ha3, maxAttempts, natToString]
    rfl
  · simp [connectToNetwork, connectAttemptLoop, hf1, ha1, hp]
  · simp [connectToNetwork, connectAttemptLoop, hf1, ha1, hp]

/-- Witness for C1 at a concrete run: three attempts whose activation
calls fail with e1/e2/e3 produce the consolidated three-attempt error with
two backoffs. -/
theorem C1_retry_semantics_witness :
    connectToNetwork (fun i =>
        if i = 1 then ⟨none, false, some "e1", .activated⟩
        else if i = 2 then ⟨none, true, some "e2", .activated⟩
        else ⟨none, true, some "e3", .activated⟩) "Net"
      = ⟨.error ("Connection failed after 3 attempts: " ++ "e3"), 3, 2⟩ :=
  (C1_retry_semantics (fun i =>
      if i = 1 then ⟨none, false, some "e1", .activated⟩
      else if i = 2 then ⟨none, true, some "e2", .activated⟩
      else ⟨none, true, some "e3", .activated⟩) "Net" "e1" "e2" "e3"
      0 0 0).1 rfl rfl rfl rfl rfl rfl

/-- Members of the command-loop state sequence with status Connected carry
a `connected_ssid` and a lowered AP flag. -/
theorem loopStates_connected_invariant (cmds : List LoopCmd)
    (s0 : WifiState) (s : WifiState) (hs : s ∈ loopStates s0 cmds)
    (hc : s.status = .connected) :
    s.connected_ssid.isSome = true ∧ s.ap_running = false := by
  induction cmds generalizing s0 with
  | nil => simp [loopStates] at hs
  | cons head tail ih =>
    cases head with
    | scan => exact ih s0 hs
    | shutdown => simp [loopStates] at hs
    | sigint => simp [loopStates] at hs
    | connect ssid password save outcome =>
      cases outcome with
      | none =>
        simp [loopStates] at hs
        rcases hs with h | h
        · rw [h] at hc; simp [writeConnecting] at hc
        · rw [h]; simp [writeConnected]
      | some e =>
        simp [loopStates] at hs
        rcases hs with h | h | h
        · rw [h] at hc; simp [writeConnecting] at hc
        · rw [h] at hc; simp [writeFailed] at hc
        · exact ih _ h

/-- Claim C3: every state `run_daemon` writes to the shared `WifiState`
(and broadcasts) satisfies: status Connected implies `connected_ssid` is
set and `ap_running` is false. -/
theorem C3_connected_invariant (networks : List NetworkInfo)
    (apSsid apIp : String) (now : Nat) (cmds : List LoopCmd) (s : WifiState)
    (hs : s ∈ daemonPublishedStates networks apSsid apIp now cmds)
    (hc : s.status = .connected) :
    s.connected_ssid.isSome = true ∧ s.ap_running = false := by
  simp [daemonPublishedStates] at hs
  rcases hs with h | h | h | h
  · rw [h] at hc; simp [writeScanning, WifiState.default] at hc
  · rw [h] at hc
    simp [writeAwaiting, writeScanning, WifiState.default] at hc
  · rw [h] at hc
    simp [writeApStarted, writeAwaiting, writeScanning,
      WifiState.default] at hc
  · exact loopStates_connected_invariant cmds _ s h hc

/-- Witness for C3 on a concrete daemon run: one successful Connect command
publishes the Connected state, which carries the SSID and a lowered AP
flag. -/
theorem C3_connected_invariant_witness :
    (writeConnected "Home" (writeConnecting "Home" (writeApStarted "AP"
        "10.0.0.1" (writeAwaiting [] 0 (writeScanning
        WifiState.default))))).connected_ssid.isSome = true ∧
    (writeConnected "Home" (writeConnecting "Home" (writeApStarted "AP"
        "10.0.0.1" (writeAwaiting [] 0 (writeScanning
        WifiState.default))))).ap_running = false :=
  C3_connected_invariant [] "AP" "10.0.0.1" 0
    [.connect "Home" "pw" true none] _ (by decide) (by decide)

/-- Any failing `start_ap` run ends by performing the full `stop_ap`
teardown and then the device restore. -/
theorem startAp_error_suffix (env : ApEnv) (interface ssid apIp : String)
    (e : String) (h : (startAp env interface ssid apIp).1 = .error e) :
    ∃ l, (startAp env interface ssid apIp).2
      = l ++ [.stopAp, .restoreDevice] := by
  rcases hinner : startApInner env interface ssid apIp with ⟨res, tr⟩
  cases res with
  | ok u => simp [startAp, hinner] at h
  | error msg => exact ⟨tr, by simp [startAp, hinner]⟩

/-- Claim C6: spawn order and gating of `start_ap`.  In every run: the
2 s settle precedes the hostapd exit check; hostapd is spawned and its
exit check passes before the AP address is assigned; the address
assignment and the 5 s / 100 ms wait for it precede the dnsmasq spawn
(and dnsmasq is never spawned when the address never appeared); the
500 ms settle precedes the dnsmasq exit check; an early hostapd exit
fails the run with an error naming the exit status, without assigning the
address; and every failing run ends with the full `stop_ap` teardown
followed by the device restore (backend service restart, device re-marked
managed/autoconnectable). -/
theorem C6_start_ap_gating (env : ApEnv) (interface ssid apIp : String) :
    (gatedBy (startAp env interface ssid apIp).2
        .spawnHostapd .addrAdd = true ∧
     gatedBy (startAp env interface ssid apIp).2
        .checkHostapdExit .addrAdd = true ∧
     gatedBy (startAp env interface ssid apIp).2
        (.settleMs 2000) .checkHostapdExit = true ∧
     gatedBy (startAp env interface ssid apIp).2
        .addrAdd (.waitIpAssignment 5000 100) = true ∧
     gatedBy (startAp env interface ssid apIp).2
        (.waitIpAssignment 5000 100) .spawnDnsmasq = true ∧
     gatedBy (startAp env interface ssid apIp).2
        (.settleMs 500) .checkDnsmasqExit = true ∧
     (env.ipAppeared = false →
       ApEvent.spawnDnsmasq ∉ (startAp env interface ssid apIp).2) ∧
     (∀ n, env.hostapdEarlyExit = some n →
       ApEvent.spawnHostapd ∈ (startAp env interface ssid apIp).2 →
       (startAp env interface ssid apIp).1
           = .error (hostapdEarlyExitMsg n) ∧
         ApEvent.addrAdd ∉ (startAp env interface ssid apIp).2)) ∧
    (∀ e, (startAp env interface ssid apIp).1 = .error e →
      ∃ l, (startAp env interface ssid apIp).2
        = l ++ [.stopAp, .restoreDevice]) := by
  refine ⟨?_, fun e he => startAp_error_suffix env interface ssid apIp e he⟩
  obtain ⟨pe, w1, w2, sh, he, aa, lu, ip, sd, de⟩ := env
  cases pe with
  | some e => simp +decide [startAp, startApInner, gatedBy]
  | none =>
  cases w1 with
  | false => simp +decide [startAp, startApInner, gatedBy]
  | true =>
  cases hp : parseIpv4 apIp with
  | none => simp +decide [startAp, startApInner, gatedBy, hp]
  | some v =>
  cases w2 with
  | false => simp +decide [startAp, startApInner, gatedBy, hp]
  | true =>
  cases sh with
  | false => simp +decide [startAp, startApInner, gatedBy, hp]
  | true =>
  cases he with
  | some n => simp +decide [startAp, startApInner, gatedBy, hp]
  | none =>
  cases aa with
  | false => simp +decide [startAp, startApInner, gatedBy, hp]
  | true =>
  cases lu with
  | false => simp +decide [startAp, startApInner, gatedBy, hp]
  | true =>
  cases ip with
  | false => simp +decide [startAp, startApInner, gatedBy, hp]
  | true =>
  cases sd with
  | false => simp +decide [startAp, startApInner, gatedBy, hp]
  | true =>
  cases de with
  | some n => simp +decide [startAp, startApInner, gatedBy, hp]
  | none => simp +decide [startAp, startApInner, gatedBy, hp]

/-- Witness for C6 at a concrete run where hostapd exits early with
status 1: `start_ap` fails naming the exit status and never assigns the
AP address. -/
theorem C6_start_ap_gating_witness :
    (startAp ⟨none, true, true, true, some 1, true, true, true, true, none⟩
        "wlan0" "HyperRecovery" "192.168.42.1").1
      = .error (hostapdEarlyExitMsg 1) ∧
    ApEvent.addrAdd ∉ (startAp
        ⟨none, true, true, true, some 1, true, true, true, true, none⟩
        "wlan0" "HyperRecovery" "192.168.42.1").2 :=
  (C6_start_ap_gating
      ⟨none, true, true, true, some 1, true, true, true, true, none⟩
      "wlan0" "HyperRecovery"
      "192.168.42.1").1.2.2.2.2.2.2.2 1 rfl (by decide)

/-! ### Scanner lemmas -/

/-- The combined invariant of the `by_ssid` accumulation: the accumulator
holds only observed networks, covers every observed SSID, dominates every
observed signal for its SSID, and has pairwise-distinct SSIDs. -/
def DedupInv (processed acc : List NetworkInfo) : Prop :=
  (∀ e ∈ acc, e ∈ processed) ∧
  (∀ m ∈ processed, ∃ e ∈ acc, e.ssid = m.ssid) ∧
  (∀ m ∈ processed, ∀ e ∈ acc, e.ssid = m.ssid →
    m.signal_strength ≤ e.signal_strength) ∧
  (acc.map (fun e => e.ssid)).Nodup

/-- The facts needed about a single replacement step of the
`and_modify` closure. -/
theorem dedupReplace_facts (n e : NetworkInfo) :
    (if e.ssid = n.ssid && n.signal_strength > e.signal_strength then n
     else e).ssid = e.ssid ∧
    e.signal_strength ≤
      (if e.ssid = n.ssid && n.signal_strength > e.signal_strength then n
       else e).signal_strength ∧
    ((if e.ssid = n.ssid && n.signal_strength > e.signal_strength then n
      else e) = n ∨
     (if e.ssid = n.ssid && n.signal_strength > e.signal_strength then n
      else e) = e) ∧
    (e.ssid = n.ssid → n.signal_strength ≤
      (if e.ssid = n.ssid && n.signal_strength > e.signal_strength then n
       else e).signal_strength) := by
  by_cases h1 : e.ssid = n.ssid
  · by_cases h2 : e.signal_strength < n.signal_strength
    · have hif : (if e.ssid = n.ssid
          && n.signal_strength > e.signal_strength then n else e) = n := by
        simp [h1, h2]
      rw [hif]
      exact ⟨h1.symm, Nat.le_of_lt h2, Or.inl rfl, fun _ => Nat.le_refl _⟩
    · have hif : (if e.ssid = n.ssid
          && n.signal_strength > e.signal_strength then n else e) = e := by
        simp [h1, h2]
      rw [hif]
      exact ⟨rfl, Nat.le_refl _, Or.inr rfl, fun _ => Nat.le_of_not_lt h2⟩
  · have hif : (if e.ssid = n.ssid
        && n.signal_strength > e.signal_strength then n else e) = e := by
      simp [h1]
    rw [hif]
    exact ⟨rfl, Nat.le_refl _, Or.inr rfl, fun hc => absurd hc h1⟩

theorem dedupStep_inv (processed acc : List NetworkInfo)
    (h : DedupInv processed acc) (n : NetworkInfo) :
    DedupInv (processed ++ [n]) (dedupStep acc n) := by
  obtain ⟨hsub, hcover, hdom, hnodup⟩ := h
  by_cases hany : (acc.any (fun e => e.ssid = n.ssid)) = true
  · have hstep : dedupStep acc n = acc.map (fun e =>
        if e.ssid = n.ssid && n.signal_strength > e.signal_strength then n
        else e) := by
      simp [dedupStep, hany]
    rw [hstep]
    refine ⟨?_, ?_, ?_, ?_⟩
    · intro e' he'
      rcases List.mem_map.1 he' with ⟨e, he, hfe⟩
      rcases (dedupReplace_facts n e).2.2.1 with hc | hc
    <;> rw [← hfe, hc]
      · exact List.mem_append_right _ (by simp)
      · exact List.mem_append_left _ (hsub e he)
    · intro m hm
      rcases List.mem_append.1 hm with hm | hm
      · rcases hcover m hm with ⟨e, he, hes⟩
        refine ⟨_, List.mem_map_of_mem _ he, ?_⟩
        rw [(dedupReplace_facts n e).1, hes]
      · rw [List.mem_singleton.1 hm]
        rcases List.any_eq_true.1 hany with ⟨e, he, hes⟩
        refine ⟨_, List.mem_map_of_mem _ he, ?_⟩
        rw [(dedupReplace_facts n e).1]
        simpa using hes
    · intro m hm e' he' hse
      rcases List.mem_map.1 he' with ⟨e, he, hfe⟩
      have hes : e.ssid = e'.ssid := by
        rw [← hfe, (dedupReplace_facts n e).1]
      rcases List.mem_append.1 hm with hm | hm
      · exact Nat.le_trans (hdom m hm e he (hes.trans hse))
          (by rw [← hfe]; exact (dedupReplace_facts n e).2.1)
      · have hmn : m = n := List.mem_singleton.1 hm
        rw [hmn, ← hfe]
        exact (dedupReplace_facts n e).2.2.2 (by rw [hes, hse, hmn])
    · have hmap : (acc.map (fun e =>
          if e.ssid = n.ssid && n.signal_strength > e.signal_strength then n
          else e)).map (fun e => e.ssid) = acc.map (fun e => e.ssid) := by
        rw [List.map_map]
        exact List.map_congr_left (fun e _he => (dedupReplace_facts n e).1)
      rw [hmap]
      exact hnodup
  · have hfresh : ∀ e ∈ acc, ¬ e.ssid = n.ssid := by
      intro e he hes
      exact hany (List.any_eq_true.2 ⟨e, he, by simpa using hes⟩)
    have hstep : dedupStep acc n = acc ++ [n] := by
      simp [dedupStep, hany]
    rw [hstep]
    refine ⟨?_, ?_, ?_, ?_⟩
    · intro e' he'
      rcases List.mem_append.1 he' with he' | he'
      · exact List.mem_append_left _ (hsub e' he')
      · exact List.mem_append_right _ he'
    · intro m hm
      rcases List.mem_append.1 hm with hm | hm
      · rcases hcover m hm with ⟨e, he, hes⟩
        exact ⟨e, List.mem_append_left _ he, hes⟩
      · refine ⟨n, List.mem_append_right _ (by simp), ?_⟩
        rw [List.mem_singleton.1 hm]
    · intro m hm e' he' hse
      rcases List.mem_append.1 hm with hm | hm
      · rcases List.mem_append.1 he' with he' | he'
        · exact hdom m hm e' he' hse
        · rcases hcover m hm with ⟨e, he, hes⟩
          rw [List.mem_singleton.1 he'] at hse
          exact absurd (hes.trans hse.symm) (hfresh e he)
      · rcases List.mem_append.1 he' with he' | he'
        · rw [List.mem_singleton.1 hm] at hse
          exact absurd hse (hfresh e' he')
        · rw [List.mem_singleton.1 hm, List.mem_singleton.1 he']
    · rw [List.map_append]
      simp only [List.map_cons, List.map_nil]
      rw [List.nodup_append]
      refine ⟨hnodup, List.nodup_singleton _, ?_⟩
      intro x hx hx'
      rw [List.mem_singleton.1 hx'] at hx
      rcases List.mem_map.1 hx with ⟨e, he, hes⟩
      exact hfresh e he hes

theorem dedup_fold_inv (rest processed acc : List NetworkInfo)
    (h : DedupInv processed acc) :
    DedupInv (processed ++ rest) (rest.foldl dedupStep acc) := by
  induction rest generalizing processed acc with
  | nil => simpa using h
  | cons n rest ih =>
    have := ih (processed ++ [n]) (dedupStep acc n) (dedupStep_inv _ _ h n)
    simpa [List.append_assoc] using this

theorem dedupBySsid_inv (networks : List NetworkInfo) :
    DedupInv networks (dedupBySsid networks) := by
  have := dedup_fold_inv networks [] [] (by
    refine ⟨?_, ?_, ?_, ?_⟩ <;> simp [DedupInv])
  simpa [dedupBySsid] using this

/-- The stable descending sort used by both scanners yields a list that is
pairwise non-increasing in signal strength. -/
theorem mergeSort_signal_desc (l : List NetworkInfo) :
    (l.mergeSort (fun a b => b.signal_strength ≤ a.signal_strength)).Pairwise
      (fun a b => b.signal_strength ≤ a.signal_strength) := by
  have h := @List.sorted_mergeSort NetworkInfo
    (fun a b : NetworkInfo =>
      decide (b.signal_strength ≤ a.signal_strength))
    (fun a b c hab hbc => by
      simp at hab hbc ⊢
      exact Nat.le_trans hbc hab)
    (fun a b => by
      simpa using Nat.le_total b.signal_strength a.signal_strength) l
  exact h.imp (fun hab => by simpa using hab)

/-- The nmcli line loop never emits two entries with the same SSID: every
collected SSID is recorded in `seen` and re-occurrences are skipped. -/
theorem nmcliCollect_nodup (rows : List (List String)) (seen : List String)
    (networks : List NetworkInfo)
    (hnd : (networks.map (fun e => e.ssid)).Nodup)
    (hseen : ∀ x ∈ networks.map (fun e => e.ssid), x ∈ seen) :
    ((nmcliCollect rows seen networks).map (fun e => e.ssid)).Nodup := by
  induction rows generalizing seen networks with
  | nil => simpa [nmcliCollect] using hnd
  | cons fields rest ih =>
    by_cases hlen : fields.length ≥ 6
    · by_cases hskip :
        (fields.getD 0 "" = "" || seen.contains (fields.getD 0 "")) = true
      · have hred : nmcliCollect (fields :: rest) seen networks
            = nmcliCollect rest seen networks := by
          simp only [nmcliCollect]
          rw [if_pos hlen, if_pos hskip]
        rw [hred]
        exact ih seen networks hnd hseen
      · have hred : nmcliCollect (fields :: rest) seen networks
            = nmcliCollect rest (seen ++ [fields.getD 0 ""])
                (networks ++ [parseNmcliFields fields]) := by
          simp only [nmcliCollect]
          rw [if_pos hlen, if_neg hskip]
        rw [hred]
        have hfresh : fields.getD 0 "" ∉ seen := by
          intro hmem
          have h := by simpa using hskip
          exact h.2 (by simpa using hmem)
        refine ih _ _ ?_ ?_
        · rw [List.map_append]
          simp only [List.map_cons, List.map_nil]
          rw [List.nodup_append]
          refine ⟨hnd, List.nodup_singleton _, ?_⟩
          intro x hx hx'
          have hx0 : x = (parseNmcliFields fields).ssid :=
            List.mem_singleton.1 hx'
          have : x ∈ seen := hseen x hx
          rw [hx0] at this
          exact hfresh this
        · intro x hx
          rw [List.map_append] at hx
          rcases List.mem_append.1 hx with hx | hx
          · exact List.mem_append_left _ (hseen x hx)
          · simp only [List.map_cons, List.map_nil] at hx
            have hx0 : x = (parseNmcliFields fields).ssid :=
              List.mem_singleton.1 hx
            rw [hx0]
            exact List.mem_append_right _ (by simp [parseNmcliFields])
    · have hred : nmcliCollect (fields :: rest) seen networks
          = nmcliCollect rest seen networks := by
        simp [nmcliCollect, hlen]
      rw [hred]
      exact ih seen networks hnd hseen

/-- Claim C2 counterexample: the nmcli scanner of `hyper-wifi-setup` keeps
the first line seen for an SSID, not the strongest.  With two lines for
SSID `X` at signal 10 then 90, the returned list retains the 10-strength
entry although a 90-strength access point with the same SSID was
observed. -/
theorem C2_nmcli_first_seen_counterexample :
    scanNetworksNmcli ["X|aa|10|2412 MHz|1|WPA2".data,
        "X|bb|90|2412 MHz|1|WPA2".data]
      = [⟨"X", "aa", 10, 2412, 1, true, "WPA2"⟩] ∧
    parseNmcliFields (splitEscapedFields "X|bb|90|2412 MHz|1|WPA2".data '|')
      = ⟨"X", "bb", 90, 2412, 1, true, "WPA2"⟩ := by
  have h1 : nmcliCollect ((["X|aa|10|2412 MHz|1|WPA2".data,
        "X|bb|90|2412 MHz|1|WPA2".data]).map
        (fun l => splitEscapedFields l '|')) [] []
      = [⟨"X", "aa", 10, 2412, 1, true, "WPA2"⟩] := by decide
  refine ⟨?_, by decide⟩
  rw [scanNetworksNmcli, h1]
  simp [List.mergeSort]

/-- Claim C2 amended: both scanners return lists sorted non-increasing by
signal strength with no duplicate SSIDs; the D-Bus scanner of
`hyper-connect` additionally retains, for each SSID, an observed entry
whose signal dominates every observed access point with that SSID, and
covers every observed SSID — while the nmcli scanner of `hyper-wifi-setup`
retains the first entry listed for each SSID, which is the strongest only
if nmcli lists it first. -/
theorem C2_scanner_properties (aps : List ApProperties)
    (lines : List (List Char)) :
    ((scanNetworksDbus aps).Pairwise
       (fun a b => b.signal_strength ≤ a.signal_strength) ∧
     ((scanNetworksDbus aps).map (fun e => e.ssid)).Nodup ∧
     (∀ e ∈ scanNetworksDbus aps, e ∈ aps.filterMap readAccessPoint ∧
        ∀ m ∈ aps.filterMap readAccessPoint, m.ssid = e.ssid →
          m.signal_strength ≤ e.signal_strength) ∧
     (∀ m ∈ aps.filterMap readAccessPoint,
        ∃ e ∈ scanNetworksDbus aps, e.ssid = m.ssid)) ∧
    ((scanNetworksNmcli lines).Pairwise
       (fun a b => b.signal_strength ≤ a.signal_strength) ∧
     ((scanNetworksNmcli lines).map (fun e => e.ssid)).Nodup) := by
  obtain ⟨hsub, hcover, hdom, hnd⟩ :=
    dedupBySsid_inv (aps.filterMap readAccessPoint)
  have hperm := List.mergeSort_perm
    (dedupBySsid (aps.filterMap readAccessPoint))
    (fun a b => decide (b.signal_strength ≤ a.signal_strength))
  constructor
  · refine ⟨mergeSort_signal_desc _, ?_, ?_, ?_⟩
    · exact ((hperm.map (fun e => e.ssid)).symm).nodup hnd
    · intro e he
      have he' : e ∈ dedupBySsid (aps.filterMap readAccessPoint) :=
        hperm.mem_iff.1 he
      exact ⟨hsub e he',
        fun m hm hms => hdom m hm e he' hms.symm⟩
    · intro m hm
      rcases hcover m hm with ⟨e, he, hes⟩
      exact ⟨e, hperm.mem_iff.2 he, hes⟩
  · have hnmnd := nmcliCollect_nodup
      (lines.map (fun l => splitEscapedFields l '|')) [] []
      (by simp) (by simp)
    have hperm2 := List.mergeSort_perm
      (nmcliCollect (lines.map (fun l => splitEscapedFields l '|')) [] [])
      (fun a b => decide (b.signal_strength ≤ a.signal_strength))
    exact ⟨mergeSort_signal_desc _, ((hperm2.map (fun e => e.ssid)).symm).nodup hnmnd⟩

/-- Witness for C2 on a concrete scan: with two access points advertising
SSID `X` at strengths 40 and 90, the D-Bus scanner retains an observed
entry dominating both. -/
theorem C2_scanner_properties_witness :
    (⟨"X", "b2", 90, 2412, 1, true, "WEP/Protected"⟩ : NetworkInfo)
      ∈ [⟨['X'], "b1", 40, 2412, 0, 0, 0⟩,
         ⟨['X'], "b2", 90, 2412, 1, 0, 0⟩].filterMap readAccessPoint ∧
    ∀ m ∈ [(⟨['X'], "b1", 40, 2412, 0, 0, 0⟩ : ApProperties),
           ⟨['X'], "b2", 90, 2412, 1, 0, 0⟩].filterMap readAccessPoint,
      m.ssid = (⟨"X", "b2", 90, 2412, 1, true,
        "WEP/Protected"⟩ : NetworkInfo).ssid →
      m.signal_strength ≤ (⟨"X", "b2", 90, 2412, 1, true,
        "WEP/Protected"⟩ : NetworkInfo).signal_strength :=
  (C2_scanner_properties
    [⟨['X'], "b1", 40, 2412, 0, 0, 0⟩, ⟨['X'], "b2", 90, 2412, 1, 0, 0⟩]
    []).1.2.2.1 ⟨"X", "b2", 90, 2412, 1, true, "WEP/Protected"⟩
    (by
      have hd : dedupBySsid
          ([⟨['X'], "b1", 40, 2412, 0, 0, 0⟩,
            ⟨['X'], "b2", 90, 2412, 1, 0, 0⟩].filterMap readAccessPoint)
          = [⟨"X", "b2", 90, 2412, 1, true, "WEP/Protected"⟩] := by decide
      rw [scanNetworksDbus, hd]
      simp [List.mergeSort])

end HyperRecovery
